import Mathlib

deriving instance DecidableEq for Except

/-!
Shallow embedding of the `net-hosts-manager` collector (Python sources:
`BaseCollector.py`, `BaseSSH.py`, `HuaweiCollector.py`, `HuaweiSSH.py`,
`HuaweiS.py`, `HuaweiCE.py`) together with proofs about the claims of its
specification.

Modelling conventions:
* Python strings are Lean `String` / `List Char`; the specific regular
  expressions used by the source are implemented as bespoke executable
  matchers whose search/greediness behaviour mirrors `re.search`,
  `re.findall` and `re.finditer` on those concrete patterns.
* Python `None` and the int/str values stored in the per-host properties
  dict are modelled by `PyVal`; dicts are insertion-ordered association
  lists (`Dict`) with Python `dict.get` / update semantics.
* Exceptions are modelled by `Except PyErr`; collection steps that talk to
  the device are state transformers `Step` over the per-host object state
  `Dev`, also recording the list of CLI commands sent.
-/

namespace NetHosts

/-- Values that the collector stores in a per-host properties dict:
Python strings, ints, and `None`. -/
inductive PyVal where
  | str : String → PyVal
  | int : Int → PyVal
  | pynone : PyVal
deriving DecidableEq, Repr

/-- Python truthiness for the values we model: `''`, `0` and `None` are falsy. -/
def PyVal.falsy : PyVal → Bool
  | .str s => s = ""
  | .int n => n = 0
  | .pynone => true

/-- `x or None` as used by the `BaseSSH` properties (falsy becomes `None`). -/
def pyOrNone (v : PyVal) : PyVal := if v.falsy then .pynone else v

/-- `str(x)` on the values we model. -/
def PyVal.pyStr : PyVal → String
  | .str s => s
  | .int n => toString n
  | .pynone => "None"

/-- Insertion-ordered dictionary with string keys, as Python's `dict`. -/
abbrev Dict : Type := List (String × PyVal)

/-- `d.get(k)` (`None` default modelled as `Option.none`). -/
def dictGet (d : Dict) (k : String) : Option PyVal := List.lookup k d

/-- `d[k] = v`: update in place if the key exists, else append (Python keeps
insertion order). -/
def dictSet (d : Dict) (k : String) (v : PyVal) : Dict :=
  if (List.any d (fun p => p.1 == k)) then
    List.map (fun p => if p.1 == k then (k, v) else p) d
  else d ++ [(k, v)]

/-- `{**a, **b}`: merge `b` into `a`, later keys overriding. -/
def dictMerge (a b : Dict) : Dict := List.foldl (fun acc p => dictSet acc p.1 p.2) a b

/-! ## Report schema (`HuaweiCollector.COLUMNS_HEADER`) -/

/-- The fixed global column schema of `HuaweiCollector.py`:
key, (header title, column width, column comment), in source order. -/
def COLUMNS_HEADER : List (String × (String × Nat × String)) :=
  [("geo",      ("Location",    10, "")),
   ("segment",  ("Segment",     8,  "")),
   ("role",     ("Role",        8,  "")),
   ("hostname", ("Hostname",    39, "Got using 'display cur | i sysname' command")),
   ("mgmt_ip",  ("MGMT IP",     17, "")),
   ("hardware", ("Hadware",     21, "Got using 'display version' command")),
   ("software_version", ("Software version", 21, "")),
   ("patch_version",    ("Patch version",    20, "")),
   ("uptime",           ("Last reboot date", 22, "Calculated using 'display version' command.\nFormat: YEAR-MONTH-DAY")),
   ("esn_chassis",      ("ESN Chassis",      24, "ESN of chassis, got using 'display ESN' command")),
   ("main_boards_list", ("Boards", 22, "Boards from 'display device' output excepting Power and Fan boards")),
   ("stack_info", ("Stack",   17, "")),
   ("in_used",  ("MAC Used", 10, "In-used mac-address from 'display mac-address summary' command's output")),
   ("capacity", ("MAC Capacity", 10, "")),
   ("memory_usage", ("Memory Usage", 10, "Memory Usage in percentage")),
   ("mab_users_number", ("MAB users", 10, "Total number of MAB users, got using 'display access-user access-type mac-authen' command. For S switches only.")),
   ("dot1x_users_number", ("802.1x users", 10, "Total number of 802.1x users, got using 'display access-user access-type dot1x' command. For S switches only.")),
   ("vrf", ("VRF", 15, "")),
   ("total", ("Total Routes", 6, "Column 'total routes' from 'display ip routing-table all-vpn-instance statistics' command's output")),
   ("bgp",      ("BGP",     6, "")),
   ("ospf",     ("OSPF",    6, "")),
   ("isis",     ("IS-IS",   6, "")),
   ("static",   ("Static",  6, "")),
   ("direct",   ("Direct",  6, "")),
   ("updated",  ("Updated", 24, "Date when information about this device was collected last time."))]

/-- `COLUMNS_HEADER.keys()`. -/
def COLUMNS_HEADER_KEYS : List String := COLUMNS_HEADER.map (fun p => p.1)

/-- `HuaweiCollector.get_report_row`: one cell per schema key, in schema
order, `host_info.get(key, 'Error')`. -/
def get_report_row (host_info : Dict) : List PyVal :=
  List.foldl (fun row key => row ++ [(dictGet host_info key).getD (.str "Error")])
    [] COLUMNS_HEADER_KEYS

/-! ## Platform registry (`HuaweiSSH.HARDWARE_PLATFORMS`) -/

/-- Does the literal pattern `pat` occur anywhere in `cs` (`re.search` of a
plain literal)? -/
def containsSub (pat : String) (s : String) : Bool :=
  (List.tails s.data).any (fun t => pat.data.isPrefixOf t)

/-- `re.search(r'S\d+', s)`: an `S` immediately followed by at least one digit. -/
def containsSDigit (s : String) : Bool :=
  (List.tails s.data).any (fun t =>
    match t with
    | 'S' :: d :: _ => d.isDigit
    | _ => false)

/-- Registry order of `HARDWARE_PLATFORMS` (a Python 3.7 dict iterates in
insertion order: CE, S, USG). -/
def HARDWARE_PLATFORMS_KEYS : List String := ["CE", "S", "USG"]

/-- `re.search(HARDWARE_PLATFORMS[platform], hardware)` as a boolean. -/
def platformRegexMatch (platform : String) (hardware : String) : Bool :=
  if platform = "CE" then containsSub "CE" hardware
  else if platform = "S" then containsSDigit hardware
  else if platform = "USG" then containsSub "USG" hardware
  else false

/-- The loop body of `HuaweiSSH.hardware_platform`: first key of
`HARDWARE_PLATFORMS` whose pattern matches the hardware string (implicit
`None` if none match). -/
def hardware_platformOf (hardware : String) : Option String :=
  HARDWARE_PLATFORMS_KEYS.find? (fun p => platformRegexMatch p hardware)

/-! ## Host-list parsing (`BaseCollector`) -/

/-- One parsed host-list entry (`{'hostname': ..., 'mgmt_ip': ...}`). -/
structure Host where
  hostname : String
  mgmt_ip : String
deriving DecidableEq, Repr

/-- Python `\s` whitespace class. -/
def isPySpace (c : Char) : Bool :=
  c = ' ' ∨ c = '\t' ∨ c = '\n' ∨ c = '\r' ∨ c = Char.ofNat 11 ∨ c = Char.ofNat 12

/-- Scan of `re.search`: try the matcher at every start position, left to
right, first success wins. -/
def reSearch {α : Type} (f : List Char → Option α) : List Char → Option α
  | [] => f []
  | c :: rest =>
    match f (c :: rest) with
    | some a => some a
    | none => reSearch f rest

/-- Parse `\d+\.\d+\.\d+\.\d+` at the head; return the matched text and the
remainder. -/
def parseIpv4At (cs : List Char) : Option (String × List Char) :=
  let d1 := cs.takeWhile Char.isDigit
  let r1 := cs.dropWhile Char.isDigit
  match d1, r1 with
  | [], _ => none
  | _, '.' :: r1' =>
    let d2 := r1'.takeWhile Char.isDigit
    let r2 := r1'.dropWhile Char.isDigit
    match d2, r2 with
    | [], _ => none
    | _, '.' :: r2' =>
      let d3 := r2'.takeWhile Char.isDigit
      let r3 := r2'.dropWhile Char.isDigit
      match d3, r3 with
      | [], _ => none
      | _, '.' :: r3' =>
        let d4 := r3'.takeWhile Char.isDigit
        let r4 := r3'.dropWhile Char.isDigit
        match d4 with
        | [] => none
        | _ =>
          some (String.mk (d1 ++ '.' :: d2 ++ '.' :: d3 ++ '.' :: d4), r4)
      | _, _ => none
    | _, _ => none
  | _, _ => none

/-- Try `DEVICES_LST_LINE_REGEX` = `(?P<hostname>\S+)\s*,\s*(?P<ipv4_address>\d+\.\d+\.\d+\.\d+).*`
at the head of `cs`.  The greedy `\S+` backtracks from the longest prefix of
the maximal non-space run. -/
def hostLineMatchAt (cs : List Char) : Option Host :=
  let run := cs.takeWhile (fun c => ¬ isPySpace c)
  if run.isEmpty then none
  else
    (List.range run.length).reverse.findSome? (fun i =>
      let t := i + 1
      let afterHost := cs.drop t
      let afterWs := afterHost.dropWhile isPySpace
      match afterWs with
      | ',' :: afterComma =>
        let afterWs2 := afterComma.dropWhile isPySpace
        match parseIpv4At afterWs2 with
        | some (ip, _) => some { hostname := String.mk (run.take t), mgmt_ip := ip }
        | none => none
      | _ => none)

/-- `BaseCollector.get_host_from_line`: comment lines (leading `#`) and lines
where the regex finds nothing yield no host. -/
def get_host_from_line (line : String) : Option Host :=
  if "#".data.isPrefixOf line.data then none
  else reSearch hostLineMatchAt line.data

/-- The accumulation loop of `BaseCollector.get_hosts_from_file`, over a list
of already-read lines. -/
def get_hosts_from_lines (lines : List String) : List Host :=
  lines.filterMap get_host_from_line

/-! ## SSH session state and `send_command` (`BaseSSH`) -/

/-- Which library established the session (`_ssh_lib_type`). -/
inductive SshLib where
  | paramiko
  | netmiko
deriving DecidableEq, Repr

/-- Outcome of one `ConnectHandler` attempt, mirroring the exception clauses
of `BaseSSH.connect_ssh_nmiko`. -/
inductive ConnectOutcome where
  | success
  | valueError
  | authenticationFailed
  | timeout
  | otherError
deriving DecidableEq, Repr

/-- `BaseSSH.connect_ssh_nmiko`: only a successful `ConnectHandler` sets
`_ssh_lib_type`; every exception clause logs and leaves the state as it was. -/
def connect_ssh_nmiko (outcome : ConnectOutcome) (libType : Option SshLib) : Option SshLib :=
  match outcome with
  | .success => some .netmiko
  | _ => libType

/-- External transport oracle: `some output` when the library call returns,
`none` when it raises (the wrappers catch and return `''`). -/
def Transport0 : Type := String → Option String

/-- `BaseSSH.send_command_nmiko` (no prompt kwargs): returns the session
output, `''` on an exception; the command reaches the network. -/
def send_command_nmiko (transport : Transport0) (command : String) : String × List String :=
  match transport command with
  | some out => (out, [command])
  | none => ("", [command])

/-- `BaseSSH.send_command_pmiko`: same shape for the Paramiko channel. -/
def send_command_pmiko (transport : Transport0) (command : String) : String × List String :=
  match transport command with
  | some out => (out, [command])
  | none => ("", [command])

/-- `BaseSSH.send_command`: dispatch on `_ssh_lib_type`; with no established
session it logs an error and returns `''`, sending nothing.  Result:
(output, commands that reached the network). -/
def send_command (libType : Option SshLib) (transport : Transport0) (command : String) :
    String × List String :=
  match libType with
  | some .paramiko => send_command_pmiko transport command
  | some .netmiko => send_command_nmiko transport command
  | none => ("", [])

/-- `BaseCollector.run_for_device` (raw-command mode): with an empty command
list it returns before any session object is created; otherwise it connects
and, if the session came up, sends every command.  Result: (was a session
attempted, commands sent). -/
def base_run_for_device (connectOk : Bool) (commands : List String) : Bool × List String :=
  if commands.isEmpty then (false, [])
  else (true, if connectOk then commands else [])

/-! ## Shared matcher helpers -/

/-- Literal substring occurrence on char lists. -/
def containsSubL (pat cs : List Char) : Bool :=
  (List.tails cs).any (fun t => pat.isPrefixOf t)

/-- Case-insensitive prefix test (`re.IGNORECASE` literals). -/
def ciPrefixOf : List Char → List Char → Bool
  | [], _ => true
  | _ :: _, [] => false
  | p :: ps, c :: cs => p.toLower == c.toLower && ciPrefixOf ps cs

/-- Scan for the rightmost position where the matcher succeeds (the residual
search a greedy `.*` performs in front of a subpattern). -/
def lastSome {α : Type} (f : List Char → Option α) (cs : List Char) : Option α :=
  (List.tails cs).reverse.findSome? f

/-- Split off the maximal `\S+` token at the head. -/
def splitToken (cs : List Char) : List Char × List Char :=
  (cs.takeWhile (fun c => ¬ isPySpace c), cs.dropWhile (fun c => ¬ isPySpace c))

/-- Numeric value of a digit run (`int(...)` on a `\d+` capture). -/
def digitsToNat (ds : List Char) : Nat :=
  ds.foldl (fun n c => 10 * n + (c.toNat - '0'.toNat)) 0

/-! ## Software version (`HuaweiSSH._return_version`) -/

/-- `V\d+R\d+\S+\)` at the head (case-insensitive letters); the capture group
stops before the `\)`, with the greedy `\S+` backtracking from the maximal
non-space run. -/
def parseVersionNumAt (cs : List Char) : Option String :=
  match cs with
  | [] => none
  | c :: rest =>
    if c = 'V' ∨ c = 'v' then
      let d1 := rest.takeWhile Char.isDigit
      let r1 := rest.dropWhile Char.isDigit
      if d1.isEmpty then none
      else
        match r1 with
        | [] => none
        | r :: rest2 =>
          if r = 'R' ∨ r = 'r' then
            let d2 := rest2.takeWhile Char.isDigit
            let r2 := rest2.dropWhile Char.isDigit
            if d2.isEmpty then none
            else
              let run := r2.takeWhile (fun ch => ¬ isPySpace ch)
              (List.range run.length).reverse.findSome? (fun t =>
                if 1 ≤ t ∧ run.getD t ' ' = ')' then
                  some (String.mk (c :: d1 ++ r :: d2 ++ run.take t))
                else none)
          else none
    else none

/-- One attempt of `r'VRP.*software.*(?P<version>V\d+R\d+\S+)\)'` (with
`re.IGNORECASE`); `.` never crosses a newline, both `.*` are greedy. -/
def matchVersionAt (cs : List Char) : Option String :=
  if ciPrefixOf "vrp".data cs then
    let line := (cs.drop 3).takeWhile (fun c => c ≠ '\n')
    lastSome (fun t =>
      if ciPrefixOf "software".data t then lastSome parseVersionNumAt (t.drop 8)
      else none) line
  else none

/-- `HuaweiSSH._return_version`: the version capture, `'N/A'` when the
pattern finds nothing. -/
def return_version (output : String) : String :=
  match reSearch matchVersionAt output.data with
  | some v => v
  | none => "N/A"

/-! ## Hardware (`HuaweiSSH._return_hardware`) -/

/-- One attempt of `r'Copyright .*\nHUAWEI (?P<hardware>\S+).* uptime'`
(`huaweiTag = true`) or of the fallback without the `HUAWEI ` literal. -/
def matchHardwareAt (huaweiTag : Bool) (cs : List Char) : Option String :=
  if "Copyright ".data.isPrefixOf cs then
    match cs.dropWhile (fun c => c ≠ '\n') with
    | '\n' :: nextLine =>
      let body : Option (List Char) :=
        if huaweiTag then
          if "HUAWEI ".data.isPrefixOf nextLine then some (nextLine.drop 7) else none
        else some nextLine
      match body with
      | none => none
      | some b =>
        let run := b.takeWhile (fun c => ¬ isPySpace c)
        if run.isEmpty then none
        else
          let restOfLine := (b.drop run.length).takeWhile (fun c => c ≠ '\n')
          if containsSubL " uptime".data restOfLine then some (String.mk run) else none
    | _ => none
  else none

/-- `HuaweiSSH._return_hardware`: first regex, then the fallback, then `'N/A'`. -/
def return_hardware (output : String) : String :=
  match reSearch (matchHardwareAt true) output.data with
  | some h => h
  | none =>
    match reSearch (matchHardwareAt false) output.data with
    | some h => h
    | none => "N/A"

/-! ## Uptime (`HuaweiSSH._return_uptime`, `convert_uptime_to_since_date`) -/

/-- Exceptions of the modelled Python code. -/
inductive PyErr where
  | attributeError (msg : String)
  | nameError (msg : String)
  | typeError (msg : String)
deriving DecidableEq, Repr

/-- One attempt of `r'uptime is\s+(?P<uptime>.*)'`. -/
def matchUptimeAt (cs : List Char) : Option String :=
  if "uptime is".data.isPrefixOf cs then
    let rest := cs.drop 9
    let ws := rest.takeWhile isPySpace
    if ws.isEmpty then none
    else some (String.mk ((rest.drop ws.length).takeWhile (fun c => c ≠ '\n')))
  else none

/-- `HuaweiSSH._return_uptime`.  The no-match branch calls the *unqualified*
name `log_match_error`, which is undefined at module level, so it raises
`NameError` instead of returning `'N/A'`. -/
def return_uptime (output : String) : Except PyErr String :=
  match reSearch matchUptimeAt output.data with
  | some u => .ok u
  | none => .error (.nameError "name 'log_match_error' is not defined")

/-- `re.findall(r'(?P<number>\d+)\s+(?P<period_name>\w+)', ...)`:
non-overlapping (number, period) pairs, scanning left to right. -/
def findUptimePeriods : Nat → List Char → List (Nat × String)
  | 0, _ => []
  | _, [] => []
  | fuel + 1, c :: rest =>
    if c.isDigit then
      let drun := (c :: rest).takeWhile Char.isDigit
      let after := (c :: rest).dropWhile Char.isDigit
      let ws := after.takeWhile isPySpace
      let afterWs := after.dropWhile isPySpace
      let wrun := afterWs.takeWhile (fun ch => ch.isAlphanum ∨ ch = '_')
      if ws.isEmpty ∨ wrun.isEmpty then findUptimePeriods fuel rest
      else (digitsToNat drun, String.mk wrun) :: findUptimePeriods fuel (afterWs.drop wrun.length)
    else findUptimePeriods fuel rest

/-- The `days_multiply` word table (weeks/week/day/days, default 0). -/
def days_multiply (word : String) : Nat :=
  if word = "weeks" then 7
  else if word = "week" then 7
  else if word = "day" then 1
  else if word = "days" then 1
  else 0

/-- The `minutes_multiply` word table (hour/hours/munites/minutes, default 0;
the `munites` misspelling is in the source). -/
def minutes_multiply (word : String) : Nat :=
  if word = "hour" then 60
  else if word = "hours" then 60
  else if word = "munites" then 1
  else if word = "minutes" then 1
  else 0

/-- Civil date from days since 1970-01-01 (proleptic Gregorian). -/
def civilFromDays (z : Int) : Int × Nat × Nat :=
  let zs := z + 719468
  let era := zs.fdiv 146097
  let doe := (zs - era * 146097).toNat
  let yoe := (doe - doe / 1460 + doe / 36524 - doe / 146096) / 365
  let doy := doe - (365 * yoe + yoe / 4 - yoe / 100)
  let mp := (5 * doy + 2) / 153
  let d := doy - (153 * mp + 2) / 5 + 1
  let m := if mp < 10 then mp + 3 else mp - 9
  (era * 400 + (yoe : Int) + (if m ≤ 2 then 1 else 0), m, d)

/-- Two-digit zero padding of `strftime`. -/
def pad2 (n : Nat) : String := if n < 10 then "0" ++ toString n else toString n

/-- `%a` abbreviations, indexed Sunday-first. -/
def WEEKDAY_ABBREV : List String := ["Sun", "Mon", "Tue", "Wed", "Thu", "Fri", "Sat"]

/-- `strftime('%Y-%m-%d (%a) %H:%M')` of a timestamp in seconds since epoch. -/
def strftime_date_a_hm (t : Int) : String :=
  let day := t.fdiv 86400
  let sod := (t - 86400 * day).toNat
  let ymd := civilFromDays day
  let wd := WEEKDAY_ABBREV.getD ((day + 4).emod 7).toNat ""
  toString ymd.1 ++ "-" ++ pad2 ymd.2.1 ++ "-" ++ pad2 ymd.2.2 ++ " (" ++ wd ++ ") " ++
    pad2 (sod / 3600) ++ ":" ++ pad2 (sod % 3600 / 60)

/-- `strftime('%Y-%m-%d (%a) %H:%M:%S')` of a timestamp in seconds since epoch. -/
def strftime_date_a_hms (t : Int) : String :=
  let day := t.fdiv 86400
  let sod := (t - 86400 * day).toNat
  strftime_date_a_hm t ++ ":" ++ pad2 (sod % 60)

/-- `HuaweiSSH.convert_uptime_to_since_date`.  `now` is the wall clock
(`datetime.now()`) in seconds since the epoch: the result depends on it. -/
def convert_uptime_to_since_date (now : Int) (uptime_period : String) : String :=
  let ms := findUptimePeriods uptime_period.data.length uptime_period.data
  let days := ms.foldl (fun a m => a + m.1 * days_multiply m.2) 0
  let minutes := ms.foldl (fun a m => a + m.1 * minutes_multiply m.2) 0
  if days ≠ 0 ∨ minutes ≠ 0 then
    strftime_date_a_hm (now - ((days : Int) * 86400 + (minutes : Int) * 60))
  else "N/A for '" ++ uptime_period ++ "'"

/-- `BaseSSH.change_datetime`: the current wall clock formatted
`'%Y-%m-%d (%a) %H:%M:%S'`. -/
def change_datetime (now : Int) : String := strftime_date_a_hms now

/-! ## Patch (`HuaweiSSH._return_patch`) -/

/-- One attempt of `r'Patch Package Version\s*:\s*(?P<patch_version>\S+)'`. -/
def matchPatchAt (cs : List Char) : Option String :=
  if "Patch Package Version".data.isPrefixOf cs then
    match (cs.drop 21).dropWhile isPySpace with
    | ':' :: r2 =>
      let run := (r2.dropWhile isPySpace).takeWhile (fun c => ¬ isPySpace c)
      if run.isEmpty then none else some (String.mk run)
    | _ => none
  else none

/-- `HuaweiSSH._is_no_patch_exists`. -/
def is_no_patch_exists (output : String) : Bool := containsSub "No patch exists" output

/-- `HuaweiSSH._return_patch`.  When the version pattern matches, the
capture; on `AttributeError` (no match) `'No patch'` if the confirmation
string is present — and otherwise the function falls off the `except` block
and returns Python `None` (modelled as `Option.none`). -/
def return_patch (output : String) : Option String :=
  match reSearch matchPatchAt output.data with
  | some v => some v
  | none => if is_no_patch_exists output then some "No patch" else none

/-! ## Sysname (`HuaweiSSH._return_sysname`) -/

/-- One attempt of `r'sysname (?P<sysname>\S+)'`. -/
def matchSysnameAt (cs : List Char) : Option String :=
  if "sysname ".data.isPrefixOf cs then
    let run := (cs.drop 8).takeWhile (fun c => ¬ isPySpace c)
    if run.isEmpty then none else some (String.mk run)
  else none

/-- `HuaweiSSH._return_sysname`: capture or `'N/A'`. -/
def return_sysname (output : String) : String :=
  match reSearch matchSysnameAt output.data with
  | some s => s
  | none => "N/A"

/-! ## Stack (`HuaweiSSH._return_stack_member_number`, `_return_stack_info`) -/

/-- Does a token fit `\S+-\S+-\S+` (followed by `\s+` or end), i.e. does it
contain two well-separated dashes? -/
def hasMacShape (t : List Char) : Bool :=
  let n := t.length
  (List.range n).any (fun i =>
    t.getD i ' ' = '-' ∧ 1 ≤ i ∧
    (List.range n).any (fun j => t.getD j ' ' = '-' ∧ i + 2 ≤ j ∧ j + 2 ≤ n))

/-- One attempt of the member-row pattern
`r'(?P<index>\d+)\s+(?P<role>\S+)\s+(?P<mac>\S+-\S+-\S+)\s+(?P<priority>\d+)\s+(?P<device_type>\S+)'`;
returns the remainder after the match. -/
def stackRowMatchAt (cs : List Char) : Option (List Char) :=
  let d1 := cs.takeWhile Char.isDigit
  if d1.isEmpty then none
  else
    let r1 := cs.dropWhile Char.isDigit
    if (r1.takeWhile isPySpace).isEmpty then none
    else
      let (t2, r3) := splitToken (r1.dropWhile isPySpace)
      if t2.isEmpty ∨ (r3.takeWhile isPySpace).isEmpty then none
      else
        let (t3, r5) := splitToken (r3.dropWhile isPySpace)
        if ¬ hasMacShape t3 then none
        else if (r5.takeWhile isPySpace).isEmpty then none
        else
          let r6 := r5.dropWhile isPySpace
          let d4 := r6.takeWhile Char.isDigit
          if d4.isEmpty then none
          else
            let r7 := r6.dropWhile Char.isDigit
            if (r7.takeWhile isPySpace).isEmpty then none
            else
              let (t5, r9) := splitToken (r7.dropWhile isPySpace)
              if t5.isEmpty then none else some r9

/-- Non-overlapping `re.findall` scan counting member rows. -/
def stackRowsCount : Nat → List Char → Nat
  | 0, _ => 0
  | _, [] => 0
  | fuel + 1, c :: rest =>
    match stackRowMatchAt (c :: rest) with
    | some rem => 1 + stackRowsCount fuel rem
    | none => stackRowsCount fuel rest

/-- `HuaweiSSH._return_stack_member_number`: `len(re.findall(...))`. -/
def return_stack_member_number (output : String) : Nat :=
  stackRowsCount output.data.length output.data

/-- The lazy `(.*\n)*?` line skipper: try at the current position, else after
each subsequent newline, earliest success first. -/
def findFromLineStarts {α : Type} : Nat → (List Char → Option α) → List Char → Option α
  | 0, _, _ => none
  | fuel + 1, f, cs =>
    match f cs with
    | some a => some a
    | none =>
      match cs.dropWhile (fun c => c ≠ '\n') with
      | '\n' :: tail => findFromLineStarts fuel f tail
      | _ => none

/-- One attempt of the stack-info pattern
`r'Stack mode\s*:\s*(?P<mode>\S+)(.*\n)*?Stack topology type\s*:\s*(?P<type>\S+)(.*\n)*?Stack system MAC\s*:\s*(?P<MAC>\S+-\S+-\S+)(.*\n)*?'`. -/
def matchStackModeAt (cs : List Char) : Option (String × String × String) :=
  if "Stack mode".data.isPrefixOf cs then
    match (cs.drop 10).dropWhile isPySpace with
    | ':' :: r2 =>
      let (mode, r4) := splitToken (r2.dropWhile isPySpace)
      if mode.isEmpty then none
      else
        findFromLineStarts (r4.length + 1) (fun ds =>
          if "Stack topology type".data.isPrefixOf ds then
            match (ds.drop 19).dropWhile isPySpace with
            | ':' :: s2 =>
              let (ty, s4) := splitToken (s2.dropWhile isPySpace)
              if ty.isEmpty then none
              else
                findFromLineStarts (s4.length + 1) (fun es =>
                  if "Stack system MAC".data.isPrefixOf es then
                    match (es.drop 16).dropWhile isPySpace with
                    | ':' :: u2 =>
                      let (mac, _) := splitToken (u2.dropWhile isPySpace)
                      if hasMacShape mac then
                        some (String.mk mode, String.mk ty, String.mk mac)
                      else none
                    | _ => none
                  else none) s4
            | _ => none
          else none) r4
    | _ => none
  else none

/-- The `re.search` of `_return_stack_info`. -/
def searchStackInfo (output : String) : Option (String × String × String) :=
  reSearch matchStackModeAt output.data

/-! ## MAC summary (`HuaweiS` / `HuaweiCE.get_regex_request_mac_summary`) -/

/-- One attempt of the S-series pattern
`r'In-used\s+:\s+(?P<in_used>\d+)\nCapacity\s+:\s+(?P<capacity>\d+)'`;
result `(in_used, capacity)`. -/
def matchMacSAt (cs : List Char) : Option (String × String) :=
  if "In-used".data.isPrefixOf cs then
    let r1 := cs.drop 7
    if (r1.takeWhile isPySpace).isEmpty then none
    else
      match r1.dropWhile isPySpace with
      | ':' :: r2 =>
        if (r2.takeWhile isPySpace).isEmpty then none
        else
          let r3 := r2.dropWhile isPySpace
          let d1 := r3.takeWhile Char.isDigit
          if d1.isEmpty then none
          else
            match r3.dropWhile Char.isDigit with
            | '\n' :: r4 =>
              if "Capacity".data.isPrefixOf r4 then
                let r5 := r4.drop 8
                if (r5.takeWhile isPySpace).isEmpty then none
                else
                  match r5.dropWhile isPySpace with
                  | ':' :: r6 =>
                    if (r6.takeWhile isPySpace).isEmpty then none
                    else
                      let d2 := (r6.dropWhile isPySpace).takeWhile Char.isDigit
                      if d2.isEmpty then none else some (String.mk d1, String.mk d2)
                  | _ => none
              else none
            | _ => none
      | _ => none
  else none

/-- One attempt of the CE-series pattern
`r'Capacity of this slot\s*:\s*(?P<capacity>\d+)(.*\n)*?In-used\s*:\s*(?P<in_used>\d+)'`;
result `(capacity, in_used)`. -/
def matchMacCEAt (cs : List Char) : Option (String × String) :=
  if "Capacity of this slot".data.isPrefixOf cs then
    match (cs.drop 21).dropWhile isPySpace with
    | ':' :: r2 =>
      let r3 := r2.dropWhile isPySpace
      let d1 := r3.takeWhile Char.isDigit
      if d1.isEmpty then none
      else
        let r4 := r3.dropWhile Char.isDigit
        findFromLineStarts (r4.length + 1) (fun ds =>
          if "In-used".data.isPrefixOf ds then
            match (ds.drop 7).dropWhile isPySpace with
            | ':' :: s2 =>
              let d2 := (s2.dropWhile isPySpace).takeWhile Char.isDigit
              if d2.isEmpty then none else some (String.mk d1, String.mk d2)
            | _ => none
          else none) r4
    | _ => none
  else none

/-! ## Routes (`HuaweiSSH.REGEX_ROUTES_SUMMARY`, `_return_regex_search_result`) -/

/-- One attempt of `'\n' ++ literal ++ '\s+(?P<routes_number>\d+)'`. -/
def matchNlLitNumAt (lit : List Char) (cs : List Char) : Option String :=
  match cs with
  | '\n' :: rest =>
    if lit.isPrefixOf rest then
      let r1 := rest.drop lit.length
      if (r1.takeWhile isPySpace).isEmpty then none
      else
        let d := (r1.dropWhile isPySpace).takeWhile Char.isDigit
        if d.isEmpty then none else some (String.mk d)
    else none
  | _ => none

/-- The lazy interior of `r'\nIS.*?IS\s+(?P<routes_number>\d+)'` (`.` never
crosses a newline; shortest gap first). -/
def matchIsisInner : Nat → List Char → Option String
  | 0, _ => none
  | fuel + 1, cs =>
    match
      (if "IS".data.isPrefixOf cs then
        let r1 := cs.drop 2
        let ws := r1.takeWhile isPySpace
        let d := (r1.dropWhile isPySpace).takeWhile Char.isDigit
        if ws.isEmpty ∨ d.isEmpty then none else some (String.mk d)
      else none) with
    | some a => some a
    | none =>
      match cs with
      | c :: rest => if c = '\n' then none else matchIsisInner fuel rest
      | [] => none

/-- One attempt of the IS-IS pattern. -/
def matchIsisAt (cs : List Char) : Option String :=
  match cs with
  | '\n' :: rest =>
    if "IS".data.isPrefixOf rest then
      let r := rest.drop 2
      matchIsisInner (r.length + 1) r
    else none
  | _ => none

/-- Key order of `REGEX_ROUTES_SUMMARY` (dict insertion order). -/
def REGEX_ROUTES_SUMMARY_KEYS : List String :=
  ["total", "direct", "static", "ospf", "isis", "bgp"]

/-- `HuaweiSSH._return_regex_search_result` applied to the routes patterns:
the `routes_number` capture as a string, `0` (an int) on `AttributeError`. -/
def return_regex_search_result (key : String) (output : String) : PyVal :=
  let res :=
    if key = "isis" then reSearch matchIsisAt output.data
    else
      let lit :=
        if key = "total" then "Total"
        else if key = "direct" then "DIRECT"
        else if key = "static" then "STATIC"
        else if key = "ospf" then "OSPF"
        else "BGP"
      reSearch (matchNlLitNumAt lit.data) output.data
  match res with
  | some d => .str d
  | none => .int 0

/-! ## Access users (`HuaweiS.get_command_and_regex_dot1x_users` / `..._mac_users`) -/

/-- One attempt of `r'\n\s*Total\s*:\s*(?P<total>\d+)'`. -/
def matchTotalUsersAt (cs : List Char) : Option String :=
  match cs with
  | '\n' :: rest =>
    if "Total".data.isPrefixOf (rest.dropWhile isPySpace) then
      match ((rest.dropWhile isPySpace).drop 5).dropWhile isPySpace with
      | ':' :: r2 =>
        let d := (r2.dropWhile isPySpace).takeWhile Char.isDigit
        if d.isEmpty then none else some (String.mk d)
      | _ => none
    else none
  | _ => none

/-! ## Chassis ESN (`HuaweiSSH._return_chassiss_esn`) -/

/-- One attempt of `r'(?P<index>\S+)\s*:\s*(?P<esn>\S+)'`: greedy backtracking
of the index token, returning the `esn` capture and the remainder. -/
def esnMatchAt (cs : List Char) : Option (String × List Char) :=
  let run := cs.takeWhile (fun c => ¬ isPySpace c)
  if run.isEmpty then none
  else
    (List.range run.length).reverse.findSome? (fun i =>
      match (cs.drop (i + 1)).dropWhile isPySpace with
      | ':' :: r2 =>
        let (esn, r4) := splitToken (r2.dropWhile isPySpace)
        if esn.isEmpty then none else some (String.mk esn, r4)
      | _ => none)

/-- `re.finditer` scan collecting the `esn` captures. -/
def esnScan : Nat → List Char → List String
  | 0, _ => []
  | _, [] => []
  | fuel + 1, c :: rest =>
    match esnMatchAt (c :: rest) with
    | some (esn, rem) => esn :: esnScan fuel rem
    | none => esnScan fuel rest

/-- `HuaweiSSH._return_chassiss_esn` (the source's spelling): list of ESN
captures. -/
def return_chassiss_esn (output : String) : List String :=
  esnScan output.data.length output.data

/-! ## Boards (`HuaweiS` / `HuaweiCE.get_regex_request_boards_list`,
`HuaweiSSH._return_boards_list`, `request_boards_list`) -/

/-- One parsed board row (`{'index': ..., 'type': ...}`). -/
structure Board where
  index : String
  type : String
deriving DecidableEq, Repr

/-- `\s+(\S+)`: at least one whitespace, then a maximal non-empty token. -/
def parseWsTok (cs : List Char) : Option (List Char × List Char) :=
  if (cs.takeWhile isPySpace).isEmpty then none
  else
    let (t, r2) := splitToken (cs.dropWhile isPySpace)
    if t.isEmpty then none else some (t, r2)

/-- Index-token admissibility: the S patterns (and the CE all-boards pattern)
use `\S*\d+` (token must end in a digit); the CE default pattern uses `\d+`
(token must be all digits). -/
def boardsIndexOk (sPlat flagAll : Bool) (t : List Char) : Bool :=
  if sPlat ∨ flagAll then
    !t.isEmpty && (match t.getLast? with
      | some c => c.isDigit
      | none => false)
  else !t.isEmpty && t.all Char.isDigit

/-- One attempt of the board-row pattern (`\n`-anchored for S, `\s+`-anchored
for CE), 8 whitespace-separated tokens; result and remainder. -/
def boardsMatchAt (sPlat flagAll : Bool) (cs : List Char) : Option (Board × List Char) :=
  let body : Option (List Char) :=
    if sPlat then
      match cs with
      | '\n' :: rest => some rest
      | _ => none
    else if (cs.takeWhile isPySpace).isEmpty then none
    else some (cs.dropWhile isPySpace)
  match body with
  | none => none
  | some b =>
    let (t1, r1) := splitToken b
    if ¬ boardsIndexOk sPlat flagAll t1 then none
    else do
      let (_, r2) ← parseWsTok r1      -- sub
      let (ty, r3) ← parseWsTok r2     -- type
      let (_, r4) ← parseWsTok r3      -- online
      let (_, r5) ← parseWsTok r4      -- power
      let (_, r6) ← parseWsTok r5      -- register
      let (_, r7) ← parseWsTok r6      -- status
      let (_, r8) ← parseWsTok r7      -- role
      some ({ index := String.mk t1, type := String.mk ty }, r8)

/-- `re.finditer` scan over board rows. -/
def boardsScan (sPlat flagAll : Bool) : Nat → List Char → List Board
  | 0, _ => []
  | _, [] => []
  | fuel + 1, c :: rest =>
    match boardsMatchAt sPlat flagAll (c :: rest) with
    | some (b, rem) => b :: boardsScan sPlat flagAll fuel rem
    | none => boardsScan sPlat flagAll fuel rest

/-- `HuaweiSSH._return_boards_list`: `re.finditer(regex, output)` raises
`TypeError` when `get_regex_request_boards_list` resolved no platform and
returned `None` (that call sits outside the `try` block); otherwise the list
of parsed boards.  The regex choice is `(platform is S, flag_all_boards)`. -/
def return_boards_list (regexKind : Option (Bool × Bool)) (output : String) :
    Except PyErr (List Board) :=
  match regexKind with
  | none => .error (.typeError "first argument must be string or compiled pattern")
  | some (sPlat, flagAll) => .ok (boardsScan sPlat flagAll output.data.length output.data)

/-- The tail of `HuaweiSSH.request_boards_list` with `printable=True`:
fewer than two parsed boards collapse to `[]`. -/
def request_boards_list_printable_tail (boards_list : List Board) : List String :=
  if boards_list.length < 2 then []
  else boards_list.map (fun b => b.index ++ " - " ++ b.type)

/-- The tail of `HuaweiSSH.request_boards_list` with `printable=False`. -/
def request_boards_list_records_tail (boards_list : List Board) : List Board :=
  if boards_list.length < 2 then [] else boards_list

/-! ## VRF (`HuaweiSSH.request_all_vrf_list`, `_return_total_number_vrf`) -/

/-- Lazy scan for `.*?\s+IPv` (the `.` region may not cross a newline). -/
def vrfInnerScan : Nat → List Char → Option (List Char)
  | 0, _ => none
  | fuel + 1, cs =>
    match
      (let ws := cs.takeWhile isPySpace
       if ws.isEmpty then none
       else
         let r := cs.dropWhile isPySpace
         if "IPv".data.isPrefixOf r then some (r.drop 3) else none) with
    | some rem => some rem
    | none =>
      match cs with
      | c :: rest => if c = '\n' then none else vrfInnerScan fuel rest
      | [] => none

/-- `\s+.*?\s+IPv` after the captured token: the leading `\s+` is greedy
(longest run first), the `.*?` lazy. -/
def vrfTailMatch (cs : List Char) : Option (List Char) :=
  let wsmax := (cs.takeWhile isPySpace).length
  if wsmax = 0 then none
  else
    (List.range wsmax).reverse.findSome? (fun wi =>
      let region := cs.drop (wi + 1)
      vrfInnerScan (region.length + 1) region)

/-- One attempt of `r'\n\s*(?P<vrf_name>\S+)\s+.*?\s+IPv'`. -/
def vrfMatchAt (cs : List Char) : Option (String × List Char) :=
  match cs with
  | '\n' :: rest =>
    let (t, r2) := splitToken (rest.dropWhile isPySpace)
    if t.isEmpty then none
    else
      match vrfTailMatch r2 with
      | some rem => some (String.mk t, rem)
      | none => none
  | _ => none

/-- `re.finditer` scan collecting VRF names. -/
def vrfScan : Nat → List Char → List String
  | 0, _ => []
  | _, [] => []
  | fuel + 1, c :: rest =>
    match vrfMatchAt (c :: rest) with
    | some (v, rem) => v :: vrfScan fuel rem
    | none => vrfScan fuel rest

/-- One attempt of `'Total VPN-Instances configured\s+:\s*(?P<number>\d+)'`. -/
def matchTotalVrfAt (cs : List Char) : Option String :=
  if "Total VPN-Instances configured".data.isPrefixOf cs then
    let r1 := cs.drop 30
    if (r1.takeWhile isPySpace).isEmpty then none
    else
      match r1.dropWhile isPySpace with
      | ':' :: r2 =>
        let d := (r2.dropWhile isPySpace).takeWhile Char.isDigit
        if d.isEmpty then none else some (String.mk d)
      | _ => none
  else none

/-- `HuaweiSSH._return_total_number_vrf`: the int capture; on no match, `0`
for empty output and the string `'N\A'` otherwise. -/
def return_total_number_vrf (output : String) : PyVal :=
  match reSearch matchTotalVrfAt output.data with
  | some d => .int (digitsToNat d.data)
  | none => if output = "" then .int 0 else .str "N\\A"

/-! ## Command constants (`HuaweiSSH`) -/

def DISPLAY_VERSION : String := "display version"
def DISPLAY_PATCH : String := "display patch"
def DISPLAY_SYSNAME : String := "display current-configuration | include sysname"
def DISPLAY_STACK : String := "display stack"
def DISPLAY_CHASSIS_ESN : String := "display esn"
def DISPLAY_DEVICE : String := "display device manufacture-info"
def DISPLAY_MAC_SUMMARY : String := "display mac-address summary"
def DISPLAY_ROUTES_SUMMARY : String := "display ip routing-table all-vpn-instance statistics"
def DISPLAY_IP_VRF : String := "display ip vpn-instance"
def CMD_DOT1X_USERS : String := "display access-user access-type dot1x"
def CMD_MAC_USERS : String := "display access-user access-type mac-authen"

/-! ## Per-host collection steps

A `Step` is one piece of the per-host collection: it reads/updates the
`HuaweiSSH` object state, records the CLI commands sent over the (already
established) session, and may raise.  The session transport is an oracle
`Transport` from command to output: inside an established session
`send_command` returns the device output, or `''` if the library raised (the
wrapper catches), so the oracle is total. -/

/-- Mutable attributes of one `HuaweiSSH` object used during collection. -/
structure Dev where
  ip : String
  hostname : String := ""
  hardware : String := ""
  os_version : String := ""
  uptime : String := ""
  patch_version : PyVal := .str ""
deriving DecidableEq, Repr

/-- Command-to-output oracle of one established session. -/
def Transport : Type := String → String

/-- One collection step: commands sent, updated object state, result or
exception. -/
def Step (α : Type) : Type := Dev → List String × Dev × Except PyErr α

instance : Monad Step where
  pure a := fun st => ([], st, .ok a)
  bind m f := fun st =>
    match m st with
    | (cs, st1, .error e) => (cs, st1, .error e)
    | (cs, st1, .ok a) =>
      match f a st1 with
      | (cs2, st2, r) => (cs ++ cs2, st2, r)

/-- `send_command` within an established session. -/
def sendCmd (device : Transport) (command : String) : Step String :=
  fun st => ([command], st, .ok (device command))

/-- `HuaweiSSH.hardware_platform` (property): uses the cached hardware string
or requests it first (`request_hardware_info` sends `display version`), then
returns the first matching registry key. -/
def hardware_platform (device : Transport) : Step (Option String) := fun st =>
  if st.hardware = "" then
    let out := device DISPLAY_VERSION
    let hw := return_hardware out
    ([DISPLAY_VERSION], { st with hardware := hw }, .ok (hardware_platformOf hw))
  else ([], st, .ok (hardware_platformOf st.hardware))

/-- `HuaweiSSH.request_common_info`: one `display version` (version,
hardware, uptime — converted to a since-date when `flag_uptime_since`), one
`display patch`, one sysname probe; returns the five-field dict of the
corresponding object properties (`x or None`).  `now` is the wall clock in
seconds, consumed by the uptime conversion. -/
def request_common_info (now : Int) (flag_uptime_since : Bool) (device : Transport) :
    Step Dict := fun st =>
  let osv := return_version (device DISPLAY_VERSION)
  let hw := return_hardware (device DISPLAY_VERSION)
  let st1 := { st with os_version := osv, hardware := hw }
  match return_uptime (device DISPLAY_VERSION) with
  | .error e => ([DISPLAY_VERSION], st1, .error e)
  | .ok uraw =>
    let upt := if flag_uptime_since then convert_uptime_to_since_date now uraw else uraw
    let pv := return_patch (device DISPLAY_PATCH)
    let pvVal : PyVal := match pv with
      | some s => .str s
      | none => .pynone
    let sys := return_sysname (device DISPLAY_SYSNAME)
    let st2 := { st1 with uptime := upt, patch_version := pvVal, hostname := sys }
    ([DISPLAY_VERSION, DISPLAY_PATCH, DISPLAY_SYSNAME], st2,
     .ok [("hostname", pyOrNone (.str sys)),
          ("software_version", pyOrNone (.str osv)),
          ("patch_version", pyOrNone pvVal),
          ("hardware", pyOrNone (.str hw)),
          ("uptime", pyOrNone (.str upt))])

/-- Modelled from the spec: the `CustomerHostnames` module is imported by
`HuaweiCollector.py` but is not part of the repository sources; it derives
location/segment/role strings from the device sysname.  Each call may raise
(the collector catches any exception from this block). -/
structure Customer where
  geo : PyVal → Except PyErr String
  segment : PyVal → Except PyErr String
  role : PyVal → Except PyErr String

/-- The per-run check list of `HuaweiCollector._check_list`, with the
source's default values. -/
structure CheckList where
  common : Bool := true
  lldp : Bool := false
  stack : Bool := true
  esn_chassis : Bool := false
  esn_full : Bool := false
  all_boards_list : Bool := false
  main_boards_list : Bool := false
  mac_summary : Bool := false
  routes_summary : Bool := false
  access_users_mab : Bool := false
  access_users_dot1x : Bool := false
  vrf : Bool := false
  resources : Bool := false
deriving DecidableEq, Repr

/-- The defaults of `HuaweiCollector._check_list`. -/
def default_check_list : CheckList := {}

/-- The `try` block of `HuaweiCollector.request_common_info` adding
geo/segment/role/mgmt_ip: any exception leaves the dict as accumulated so
far (caught and logged). -/
def common_extras (cust : Customer) (ip : String) (props : Dict) : Dict :=
  match dictGet props "hostname" with
  | none => props
  | some hv =>
    match cust.geo hv with
    | .error _ => props
    | .ok g =>
      let p1 := dictSet props "geo" (.str g)
      match cust.segment hv with
      | .error _ => p1
      | .ok sg =>
        let p2 := dictSet p1 "segment" (.str sg)
        match cust.role hv with
        | .error _ => p2
        | .ok rl => dictSet (dictSet p2 "role" (.str rl)) "mgmt_ip" (.str ip)

/-- `HuaweiCollector.request_common_info`: gated on the `'common'` entry of
the check list; when disabled nothing is requested and the dict is empty. -/
def collector_request_common_info (cust : Customer) (now : Int) (device : Transport)
    (cl : CheckList) : Step Dict := fun st =>
  if cl.common then
    match request_common_info now true device st with
    | (cs, st1, .error e) => (cs, st1, .error e)
    | (cs, st1, .ok props) => (cs, st1, .ok (common_extras cust st1.ip props))
  else ([], st, .ok [])

/-- `HuaweiSSH.request_stack_brief_info` / `_return_stack_info`.  The
`AttributeError` branch (info pattern found nothing although more than one
member row was counted) consults `hardware_platform`, which may itself send
`display version`. -/
def request_stack_brief_info (device : Transport)
    (one_key_only more_than_two_member_only : Bool) : Step Dict := fun st =>
  let output := device DISPLAY_STACK
  let m := searchStackInfo output
  let num := return_stack_member_number output
  if more_than_two_member_only ∧ 1 < num then
    match m with
    | some g =>
      let result : Dict :=
        if one_key_only then
          [("stack_info", .str ("topo: " ++ g.2.1 ++ ", members: " ++ toString num))]
        else
          [("Stack members number", .int num), ("Stack mode", .str g.1),
           ("Stack topology type", .str g.2.1), ("Stack system MAC", .str g.2.2),
           ("status", .int 1)]
      ([DISPLAY_STACK], st, .ok result)
    | none =>
      let result : Dict :=
        if one_key_only then [("stack_info", .str ("members: " ++ toString num))]
        else [("Stack members number", .int num)]
      match hardware_platform device st with
      | (cs2, st2, _) => ([DISPLAY_STACK] ++ cs2, st2, .ok result)
  else
    let result : Dict :=
      if one_key_only then [("stack_info", .str "")]
      else [("Stack members number", .int num)]
    ([DISPLAY_STACK], st, .ok result)

/-- `HuaweiSSH.request_mac_summary` / `_return_mac_summary`: the summary
command is sent unconditionally; the platform-specific pattern is then
resolved (possibly probing `display version`); an unresolved platform means
an empty pattern whose match lacks the groups (`IndexError`), giving `{}`. -/
def request_mac_summary (device : Transport) : Step Dict := fun st =>
  let output := device DISPLAY_MAC_SUMMARY
  match hardware_platform device st with
  | (cs2, st2, hp) =>
    let res : Dict :=
      match hp with
      | .ok (some "CE") =>
        (match reSearch matchMacCEAt output.data with
         | some (cap, inu) => [("capacity", .str cap), ("in_used", .str inu)]
         | none => [])
      | .ok (some "S") =>
        (match reSearch matchMacSAt output.data with
         | some (inu, cap) => [("capacity", .str cap), ("in_used", .str inu)]
         | none => [])
      | _ => []
    ([DISPLAY_MAC_SUMMARY] ++ cs2, st2, .ok res)

/-- `HuaweiSSH.request_all_vrf_routes_number`: one routes-summary command,
then each key of `REGEX_ROUTES_SUMMARY` in dict order. -/
def request_all_vrf_routes_number (device : Transport) : Step Dict := fun st =>
  let output := device DISPLAY_ROUTES_SUMMARY
  ([DISPLAY_ROUTES_SUMMARY], st,
   .ok (REGEX_ROUTES_SUMMARY_KEYS.map (fun k => (k, return_regex_search_result k output))))

/-- `HuaweiSSH.request_dot1x_users_number`: S-platform only (the command is
not even sent otherwise, result `''`). -/
def request_dot1x_users_number (device : Transport) : Step PyVal := fun st =>
  match hardware_platform device st with
  | (cs, st1, hp) =>
    match hp with
    | .ok (some "S") =>
      let output := device CMD_DOT1X_USERS
      let v : PyVal :=
        match reSearch matchTotalUsersAt output.data with
        | some d => .int (digitsToNat d.data)
        | none => if containsSub "No online user" output then .str "No one" else .str "N/A"
      (cs ++ [CMD_DOT1X_USERS], st1, .ok v)
    | _ => (cs, st1, .ok (.str ""))

/-- `HuaweiSSH.request_mab_users_number`: same shape for MAC-authentication
users. -/
def request_mab_users_number (device : Transport) : Step PyVal := fun st =>
  match hardware_platform device st with
  | (cs, st1, hp) =>
    match hp with
    | .ok (some "S") =>
      let output := device CMD_MAC_USERS
      let v : PyVal :=
        match reSearch matchTotalUsersAt output.data with
        | some d => .int (digitsToNat d.data)
        | none => if containsSub "No online user" output then .str "No one" else .str "N/A"
      (cs ++ [CMD_MAC_USERS], st1, .ok v)
    | _ => (cs, st1, .ok (.str ""))

/-- `HuaweiSSH.request_access_users_number`. -/
def request_access_users_number (device : Transport) : Step Dict := do
  let d ← request_dot1x_users_number device
  let m ← request_mab_users_number device
  pure [("dot1x_users_number", d), ("mab_users_number", m)]

/-- `HuaweiSSH.request_esn_chassis`. -/
def request_esn_chassis (device : Transport) : Step (List String) := fun st =>
  ([DISPLAY_CHASSIS_ESN], st, .ok (return_chassiss_esn (device DISPLAY_CHASSIS_ESN)))

/-- `HuaweiSSH.request_boards_list` with `printable=True` (as called by the
collector): resolve the platform pattern, send `display device
manufacture-info`, parse, and collapse fewer than two boards to `[]`. -/
def request_boards_list (device : Transport) (flag_all_boards : Bool) :
    Step (List String) := fun st =>
  match hardware_platform device st with
  | (cs, st1, hp) =>
    let regexKind : Option (Bool × Bool) :=
      match hp with
      | .ok (some "CE") => some (false, flag_all_boards)
      | .ok (some "S") => some (true, flag_all_boards)
      | _ => none
    let output := device DISPLAY_DEVICE
    match return_boards_list regexKind output with
    | .error e => (cs ++ [DISPLAY_DEVICE], st1, .error e)
    | .ok bl => (cs ++ [DISPLAY_DEVICE], st1, .ok (request_boards_list_printable_tail bl))

/-- `', '.join(...)`. -/
def joinComma (l : List String) : String := String.intercalate ", " l

/-- `HuaweiSSH.request_all_vrf_list`. -/
def request_all_vrf_list (device : Transport) : Step String := fun st =>
  let output := device DISPLAY_IP_VRF
  let vrf_list := vrfScan output.data.length output.data
  ([DISPLAY_IP_VRF], st,
   .ok ("VRF: " ++ (return_total_number_vrf output).pyStr ++ ": " ++ joinComma vrf_list))

/-- `HuaweiCollector.request_all_for_device` calls
`host_huawei.request_memory_usage()`, but `HuaweiSSH` defines only
`request_memory_usage_percentage`: Python attribute lookup raises
`AttributeError` before anything is sent. -/
def request_memory_usage_missing : Step PyVal := fun st =>
  ([], st, .error (.attributeError "'HuaweiSSH' object has no attribute 'request_memory_usage'"))

/-- `HuaweiCollector.request_all_for_device`: the merged properties dict.
All non-`common` checks run unconditionally — the check list is consulted
only by `collector_request_common_info`. -/
def request_all_for_device (cust : Customer) (now : Int) (device : Transport)
    (cl : CheckList) : Step Dict := do
  let common ← collector_request_common_info cust now device cl
  let stack ← request_stack_brief_info device true true
  let mac ← request_mac_summary device
  let routes ← request_all_vrf_routes_number device
  let access ← request_access_users_number device
  let props := dictMerge (dictMerge (dictMerge (dictMerge common stack) mac) routes) access
  let esn ← request_esn_chassis device
  let props := dictSet props "esn_chassis" (.str (joinComma esn))
  let boards ← request_boards_list device false
  let props := dictSet props "main_boards_list" (.str (joinComma boards))
  let vrf ← request_all_vrf_list device
  let props := dictSet props "vrf" (.str vrf)
  let mem ← request_memory_usage_missing
  let props := dictSet props "memory_usage" (.str (mem.pyStr ++ "%"))
  let props := dictSet props "updated" (.str (change_datetime now))
  pure props

/-- `HuaweiCollector.run_for_device`: connect; only if a session was
established run the requests; write one CSV row only when the results exist
(an exception inside `request_all_for_device` leaves `results` unbound, the
write raises `UnboundLocalError`, which is passed).  Result: rows written
for this host. -/
def run_for_device (outcome : ConnectOutcome) (cust : Customer) (now : Int)
    (device : Transport) (cl : CheckList) (host_info : Host) : List (List PyVal) :=
  let lib := connect_ssh_nmiko outcome none
  let st0 : Dev := { ip := host_info.mgmt_ip, hostname := host_info.hostname }
  if lib.isSome then
    match request_all_for_device cust now device cl st0 with
    | (_, _, .ok props) => [get_report_row props]
    | (_, _, .error _) => []
  else []

/-- One host task of the fleet run: its parsed identity, the outcome of its
connection attempt, and its session oracle. -/
structure HostTask where
  host : Host
  outcome : ConnectOutcome
  device : Transport

/-- The fleet run (`BaseCollector.run` submitting
`HuaweiCollector.run_for_device` per host): each host task contributes its
own rows to the shared report sink; tasks share no other state. -/
def fleet_run (cust : Customer) (now : Int) (cl : CheckList) (hosts : List HostTask) :
    List (List PyVal) :=
  hosts.flatMap (fun h => run_for_device h.outcome cust now h.device cl h.host)

/-! ## Concrete fixtures used to evaluate the model -/

/-- `display version` transcript (the S-series sample of the source's
docstrings). -/
def versionOut0 : String :=
  "Huawei Versatile Routing Platform Software\nVRP (R) software, Version 5.170 (S5720 V200R011C10SPC600)\nCopyright (C) 2000-2018 HUAWEI TECH Co., Ltd.\nHUAWEI S5720-52P-LI-AC Routing Switch uptime is 11 weeks, 5 days, 9 hours, 17 minutes"

/-- A well-formed routes-summary transcript. -/
def routesOut0 : String :=
  "Route Statistics Summary\nTotal          100\nDIRECT   5\nSTATIC 3\nOSPF 0\nIS-IS        2\nBGP 90"

/-- A session oracle: well-formed outputs everywhere except the MAC-summary
command, whose output matches no pattern. -/
def oracle0 : Transport := fun cmd =>
  if cmd = DISPLAY_VERSION then versionOut0
  else if cmd = DISPLAY_PATCH then "Info: No patch exists.\nThe current state is: Idle"
  else if cmd = DISPLAY_SYSNAME then "sysname ToR-R1\n"
  else if cmd = DISPLAY_STACK then ""
  else if cmd = DISPLAY_MAC_SUMMARY then "Error: Unrecognized command"
  else if cmd = DISPLAY_ROUTES_SUMMARY then routesOut0
  else if cmd = CMD_DOT1X_USERS then "\n  Total  : 53, printed: 48"
  else if cmd = CMD_MAC_USERS then "No online user"
  else if cmd = DISPLAY_CHASSIS_ESN then "0:21980107682SJC600039"
  else ""

/-- A concrete customer-naming oracle (total, never raising). -/
def cust0 : Customer :=
  { geo := fun _ => .ok "R4", segment := fun _ => .ok "Core", role := fun _ => .ok "Access" }

/-- A concrete wall clock: 2020-04-01 12:00:00. -/
def now0 : Int := 1585742400

/-- A concrete parsed host. -/
def host0 : Host := { hostname := "SW1", mgmt_ip := "10.0.0.1" }

/-- The `HuaweiSSH` object state created for `host0`. -/
def dev0 : Dev := { ip := "10.0.0.1", hostname := "SW1" }

/-- A `display device` transcript whose board pattern yields exactly one
match. -/
def singleBoardOut : String :=
  "Slot Sub  Type                   Online\n0    -    S5720-56C-PWR-EI       Present   PowerOn  Registered   Normal   Master"

/-- Remove one key from a dict (proof-level projection). -/
def dictRemoveKey (d : Dict) (k : String) : Dict := d.filter (fun p => !(p.1 == k))

/-- Erase every trace of the uptime field from a `request_common_info`
result (proof-level projection used to state time-independence of the other
fields). -/
def stripUptimeResult (r : List String × Dev × Except PyErr Dict) :
    List String × Dev × Except PyErr Dict :=
  (r.1, { r.2.1 with uptime := "" }, r.2.2.map (fun d => dictRemoveKey d "uptime"))

/-! ## Helper lemmas -/

theorem foldl_push_eq_map {α β : Type} (f : α → β) :
    ∀ (keys : List α) (acc : List β),
      List.foldl (fun row key => row ++ [f key]) acc keys = acc ++ keys.map f := by
  intro keys
  induction keys with
  | nil => intro acc; simp
  | cons k ks ih => intro acc; simp [List.foldl, ih]

theorem request_all_only_reads_common (cust : Customer) (now : Int) (device : Transport)
    (cl : CheckList) (st : Dev) :
    request_all_for_device cust now device cl st
      = request_all_for_device cust now device { common := cl.common } st := rfl

theorem run_for_device_no_connect (outcome : ConnectOutcome) (cust : Customer) (now : Int)
    (device : Transport) (cl : CheckList) (h : Host) (hne : outcome ≠ ConnectOutcome.success) :
    run_for_device outcome cust now device cl h = [] := by
  cases outcome
  · exact absurd rfl hne
  · rfl
  · rfl
  · rfl
  · rfl

/-! ## Claim theorems -/

/-- C1: for every host for which a row is emitted, `get_report_row` produces
exactly one cell per column of the fixed global schema, in the schema's
order, using the `'Error'` sentinel for every key the collection did not
set — so emitted records are rectangular against the same column set. -/
theorem claim_C1_rectangular_rows (host_info : Dict) :
    get_report_row host_info
        = COLUMNS_HEADER_KEYS.map (fun k => (dictGet host_info k).getD (.str "Error")) ∧
    (get_report_row host_info).length = COLUMNS_HEADER_KEYS.length ∧
    COLUMNS_HEADER_KEYS.length = 25 := by
  have hmap : get_report_row host_info
      = COLUMNS_HEADER_KEYS.map (fun k => (dictGet host_info k).getD (.str "Error")) := by
    unfold get_report_row
    exact (foldl_push_eq_map _ _ _).trans (by simp)
  refine ⟨hmap, ?_, by decide⟩
  rw [hmap, List.length_map]

/-- C2 (code bug): on a host whose first enabled Check's output parses to
nothing while a later Check's output is well-formed, `request_all_for_device`
does not return a record with sentinels — it raises `AttributeError`,
because it calls the non-existent method `request_memory_usage`
(`HuaweiSSH` defines only `request_memory_usage_percentage`), and
`run_for_device` consequently writes no row at all for the host. -/
theorem claim_C2_no_record_emitted :
    (request_all_for_device cust0 now0 oracle0 default_check_list dev0).2.2
        = Except.error (PyErr.attributeError
            "'HuaweiSSH' object has no attribute 'request_memory_usage'") ∧
    run_for_device ConnectOutcome.success cust0 now0 oracle0 default_check_list host0 = [] ∧
    reSearch matchMacSAt (oracle0 DISPLAY_MAC_SUMMARY).data = none ∧
    return_regex_search_result "total" (oracle0 DISPLAY_ROUTES_SUMMARY) = PyVal.str "100" :=
  ⟨by decide, by decide, by decide, by decide⟩

/-- C3: a host whose connection attempt fails contributes no row at all, and
in a fleet run the rows contributed by the other hosts are exactly what they
would have been without it — the failure is confined to that host. -/
theorem claim_C3_connect_failure_isolated :
    (∀ (outcome : ConnectOutcome) (cust : Customer) (now : Int) (device : Transport)
        (cl : CheckList) (h : Host), outcome ≠ ConnectOutcome.success →
        run_for_device outcome cust now device cl h = []) ∧
    (∀ (cust : Customer) (now : Int) (cl : CheckList) (pre post : List HostTask)
        (t : HostTask), t.outcome ≠ ConnectOutcome.success →
        fleet_run cust now cl (pre ++ t :: post)
          = fleet_run cust now cl pre ++ fleet_run cust now cl post) := by
  constructor
  · intro outcome cust now device cl h hne
    exact run_for_device_no_connect outcome cust now device cl h hne
  · intro cust now cl pre post t ht
    unfold fleet_run
    rw [List.flatMap_append, List.flatMap_cons,
      run_for_device_no_connect t.outcome cust now t.device cl t.host ht]
    simp

/-- Witness for C3 at concrete inputs. -/
theorem claim_C3_witness :
    run_for_device ConnectOutcome.authenticationFailed cust0 now0 oracle0
        default_check_list host0 = [] ∧
    fleet_run cust0 now0 default_check_list
        ([⟨host0, .success, oracle0⟩]
          ++ ⟨⟨"SW2", "10.0.0.2"⟩, .authenticationFailed, oracle0⟩
          :: [⟨⟨"SW3", "10.0.0.3"⟩, .timeout, oracle0⟩])
      = fleet_run cust0 now0 default_check_list [⟨host0, .success, oracle0⟩]
        ++ fleet_run cust0 now0 default_check_list [⟨⟨"SW3", "10.0.0.3"⟩, .timeout, oracle0⟩] :=
  ⟨claim_C3_connect_failure_isolated.1 ConnectOutcome.authenticationFailed cust0 now0 oracle0
      default_check_list host0 (by decide),
   claim_C3_connect_failure_isolated.2 cust0 now0 default_check_list
      [⟨host0, .success, oracle0⟩] [⟨⟨"SW3", "10.0.0.3"⟩, .timeout, oracle0⟩]
      ⟨⟨"SW2", "10.0.0.2"⟩, .authenticationFailed, oracle0⟩ (by decide)⟩

/-- C4 (counterexample): `'CE6860-48S8CQ-EI'` matches both the `S` pattern
(`S\d+`, via `S8`) and the `CE` pattern, yet platform resolution yields
`'CE'`, not `'S'` — the registry order is CE, S, USG. -/
theorem claim_C4_counterexample :
    platformRegexMatch "S" "CE6860-48S8CQ-EI" = true ∧
    platformRegexMatch "CE" "CE6860-48S8CQ-EI" = true ∧
    hardware_platformOf "CE6860-48S8CQ-EI" = some "CE" ∧
    hardware_platformOf "CE6860-48S8CQ-EI" ≠ some "S" := by decide

/-- C4 (amended): resolution returns the first match in registry order
CE, S, USG; in particular an identity matching both the CE and the S
patterns resolves to `'CE'`. -/
theorem claim_C4_first_match_wins (hw : String) :
    (platformRegexMatch "CE" hw = true → hardware_platformOf hw = some "CE") ∧
    (platformRegexMatch "CE" hw = false → platformRegexMatch "S" hw = true →
      hardware_platformOf hw = some "S") ∧
    (platformRegexMatch "CE" hw = false → platformRegexMatch "S" hw = false →
      platformRegexMatch "USG" hw = true → hardware_platformOf hw = some "USG") ∧
    (platformRegexMatch "CE" hw = false → platformRegexMatch "S" hw = false →
      platformRegexMatch "USG" hw = false → hardware_platformOf hw = none) := by
  refine ⟨?_, ?_, ?_, ?_⟩ <;> intros <;>
    simp [hardware_platformOf, HARDWARE_PLATFORMS_KEYS, List.find?, *]

/-- Witness for C4's amended statement at concrete inputs. -/
theorem claim_C4_first_match_wins_witness :
    hardware_platformOf "CE12804" = some "CE" ∧
    hardware_platformOf "S5720-52P-LI-AC" = some "S" ∧
    hardware_platformOf "USG6300" = some "USG" ∧
    hardware_platformOf "N/A" = none :=
  ⟨(claim_C4_first_match_wins "CE12804").1 (by decide),
   (claim_C4_first_match_wins "S5720-52P-LI-AC").2.1 (by decide) (by decide),
   (claim_C4_first_match_wins "USG6300").2.2.1 (by decide) (by decide) (by decide),
   (claim_C4_first_match_wins "N/A").2.2.2 (by decide) (by decide) (by decide)⟩

/-- C5 (counterexample): `mac_summary` is disabled in the default check
list, yet `request_all_for_device` still sends its command. -/
theorem claim_C5_counterexample :
    default_check_list.mac_summary = false ∧
    DISPLAY_MAC_SUMMARY ∈ (request_all_for_device cust0 now0 oracle0 default_check_list dev0).1 :=
  ⟨rfl, by decide⟩

/-- C5 (amended): only the `'common'` Check is gated by the check list (when
disabled it requests nothing and contributes nothing); every other Check's
command is sent regardless of the check list; and only the raw-command
collector's `run_for_device` skips the session for an empty command list. -/
theorem claim_C5_only_common_gated :
    (∀ (cust : Customer) (now : Int) (device : Transport) (cl : CheckList) (st : Dev),
        cl.common = false →
        collector_request_common_info cust now device cl st = ([], st, .ok [])) ∧
    (∀ cl : CheckList,
        DISPLAY_MAC_SUMMARY ∈ (request_all_for_device cust0 now0 oracle0 cl dev0).1) ∧
    (∀ connectOk : Bool, base_run_for_device connectOk [] = (false, [])) := by
  refine ⟨?_, ?_, ?_⟩
  · intro cust now device cl st h
    simp [collector_request_common_info, h]
  · intro cl
    rw [request_all_only_reads_common]
    cases hc : cl.common <;> decide
  · intro connectOk
    rfl

/-- Witness for C5's amended statement at concrete inputs. -/
theorem claim_C5_only_common_gated_witness :
    collector_request_common_info cust0 now0 oracle0 { common := false } dev0
        = ([], dev0, .ok []) ∧
    DISPLAY_MAC_SUMMARY ∈ (request_all_for_device cust0 now0 oracle0 { common := false } dev0).1 ∧
    base_run_for_device true [] = (false, []) :=
  ⟨claim_C5_only_common_gated.1 cust0 now0 oracle0 { common := false } dev0 rfl,
   claim_C5_only_common_gated.2.1 { common := false },
   claim_C5_only_common_gated.2.2 true⟩

/-- C6 (code bug): patch extraction returns the captured version when the
version pattern matches and `'No patch'` when only the confirmation string
matches; but when neither matches it returns Python `None` (modelled as
`Option.none`), not the documented `'N/A'`. -/
theorem claim_C6_patch_extraction :
    return_patch "Patch Package Name    :flash:/CE6860EI-V200R005SPH008.PAT\nPatch Package Version :V200R005SPH008\nPatch Package State   :Running" = some "V200R005SPH008" ∧
    return_patch "Info: No patch exists.\nThe state of the patch state file is: Idle" = some "No patch" ∧
    return_patch "Error: Unrecognized command" = none := by decide

set_option maxHeartbeats 2000000 in
/-- C7 (counterexample): the same captured texts, extracted at two different
wall-clock instants, give different field mappings — the uptime field
depends on `datetime.now()`. -/
theorem claim_C7_counterexample :
    request_common_info now0 true oracle0 dev0
      ≠ request_common_info (now0 + 86400) true oracle0 dev0 := by decide

/-- C7 (amended): extraction is a pure function of the texts and the
wall-clock instant: every field except `uptime` is independent of the
clock, and with `flag_uptime_since = False` (raw uptime) the whole result
is clock-independent, so re-running extraction on the same texts at the
same instant is idempotent. -/
theorem claim_C7_pure_except_uptime (now₁ now₂ : Int) (flag : Bool) (device : Transport)
    (st : Dev) :
    (flag = false →
      request_common_info now₁ flag device st = request_common_info now₂ flag device st) ∧
    stripUptimeResult (request_common_info now₁ flag device st)
      = stripUptimeResult (request_common_info now₂ flag device st) := by
  constructor
  · intro h
    subst h
    unfold request_common_info
    generalize return_uptime (device DISPLAY_VERSION) = u
    cases u <;> rfl
  · unfold request_common_info
    generalize return_uptime (device DISPLAY_VERSION) = u
    cases u <;> rfl

/-- Witness for C7's amended statement at concrete inputs. -/
theorem claim_C7_pure_except_uptime_witness :
    request_common_info now0 false oracle0 dev0
      = request_common_info (now0 + 86400) false oracle0 dev0 :=
  (claim_C7_pure_except_uptime now0 (now0 + 86400) false oracle0 dev0).1 rfl

/-- C8: host-list parsing maps `"SW1, 10.0.0.1"` to exactly one host value,
while a `#` comment line and a malformed line each produce zero host
values, silently. -/
theorem claim_C8_host_line_parsing :
    get_host_from_line "SW1, 10.0.0.1" = some ⟨"SW1", "10.0.0.1"⟩ ∧
    get_host_from_line "# SW1, 10.0.0.1" = none ∧
    get_host_from_line "not-a-host-line" = none ∧
    get_hosts_from_lines ["SW1, 10.0.0.1", "# SW1, 10.0.0.1", "not-a-host-line"]
      = [⟨"SW1", "10.0.0.1"⟩] := by decide

/-- C9: on a session object on which no connection attempt ever succeeded
(`_ssh_lib_type` still unset), `send_command` returns the empty output and
sends nothing over the network. -/
theorem claim_C9_no_session_fails_fast (attempts : List ConnectOutcome)
    (transport : Transport0) (command : String)
    (h : ∀ a ∈ attempts, a ≠ ConnectOutcome.success) :
    send_command (attempts.foldl (fun lib o => connect_ssh_nmiko o lib) none) transport command
      = ("", []) := by
  have hfold : attempts.foldl (fun lib o => connect_ssh_nmiko o lib) none = none := by
    induction attempts with
    | nil => rfl
    | cons a as ih =>
      have ha : a ≠ ConnectOutcome.success := h a (List.mem_cons_self a as)
      have hstep : connect_ssh_nmiko a none = none := by
        cases a
        · exact absurd rfl ha
        · rfl
        · rfl
        · rfl
        · rfl
      rw [List.foldl_cons, hstep]
      exact ih (fun x hx => h x (List.mem_cons_of_mem a hx))
  rw [hfold]
  rfl

/-- Witness for C9 at concrete inputs. -/
theorem claim_C9_no_session_fails_fast_witness :
    send_command
        (([ConnectOutcome.authenticationFailed, ConnectOutcome.timeout]).foldl
          (fun lib o => connect_ssh_nmiko o lib) none)
        (fun _ => some "output") "display version"
      = ("", []) :=
  claim_C9_no_session_fails_fast [ConnectOutcome.authenticationFailed, ConnectOutcome.timeout]
    (fun _ => some "output") "display version" (by decide)

/-- C10: whenever the board pattern yields fewer than two matches on the
`display device` output — including exactly one — `request_boards_list`
returns the empty list, in both its printable and record forms. -/
theorem claim_C10_single_board_dropped (sPlat flagAll : Bool) (output : String)
    (h : (boardsScan sPlat flagAll output.data.length output.data).length < 2) :
    request_boards_list_printable_tail (boardsScan sPlat flagAll output.data.length output.data)
        = [] ∧
    request_boards_list_records_tail (boardsScan sPlat flagAll output.data.length output.data)
        = [] := by
  constructor
  · unfold request_boards_list_printable_tail
    rw [if_pos h]
  · unfold request_boards_list_records_tail
    rw [if_pos h]

/-- Witness for C10: a transcript with exactly one parsed board reports no
boards at all. -/
theorem claim_C10_single_board_dropped_witness :
    (boardsScan true false singleBoardOut.data.length singleBoardOut.data).length = 1 ∧
    request_boards_list_printable_tail
        (boardsScan true false singleBoardOut.data.length singleBoardOut.data) = [] ∧
    request_boards_list_records_tail
        (boardsScan true false singleBoardOut.data.length singleBoardOut.data) = [] :=
  ⟨by decide,
   (claim_C10_single_board_dropped true false singleBoardOut (by decide)).1,
   (claim_C10_single_board_dropped true false singleBoardOut (by decide)).2⟩

end NetHosts
